import Mathlib

/-!
# QKD Simulator — verification of the security-analysis and key-handling logic

Shallow embedding of the QKD-Simulator frontend logic:

* `frontend/src/components/visualization/QBERChart.tsx` — three-zone QBER
  classification,
* `frontend/src/components/visualization/CHSHMeter.tsx` — three-zone CHSH
  classification,
* `frontend/src/components/analysis/SecurityAnalysis.tsx` — `getSecurityLevel`,
* `frontend/src/components/visualization/KeyVisualization.tsx` — key match rate,
* `frontend/src/pages/EncryptionPage.tsx` — `parseKey`, key-length gating,
* `frontend/src/pages/BB84Page.tsx` — basis toggling,
* `frontend/src/store/index.ts` — the Zustand simulation store.

Numeric values (QBER percentages, CHSH S-parameter) are modelled as `ℚ`;
where JavaScript's special float values (NaN, infinities) matter we use an
explicit `JSNum` type.
-/

namespace QKD

/-- Three-way security classification displayed by the chart/meter components. -/
inductive Zone where
  | secure
  | warning
  | compromised
deriving DecidableEq, Repr

/-!
## QBER classification — `QBERChart.tsx`

The chart colours its centre value, the interpretation box and the bar with
the same three-way test: `qber <= 5` (green / "Excellent: Channel is highly
secure"), `qber <= threshold` (amber / "Acceptable"), otherwise red /
"Critical".  `BB84Page.tsx` instantiates `threshold = 8.5`.
-/

/-- QBERChart zone: `qber <= 5` secure, `qber <= threshold` warning,
otherwise compromised (QBERChart.tsx lines 95-97, 171-183). -/
def qberZone (qber threshold : ℚ) : Zone :=
  if qber ≤ 5 then .secure
  else if qber ≤ threshold then .warning
  else .compromised

/-- Default / BB84Page threshold for the QBER chart: 8.5 %. -/
def qberThreshold : ℚ := 17/2

/-- Modelled from the spec: the backend computation of `BB84Result.is_secure`
is not part of the frontend sources; §4.2 states `is_secure = QBER < 8.5%`. -/
def bb84IsSecure (qber : ℚ) : Bool := qber < 17/2

/-!
## CHSH classification — `CHSHMeter.tsx`

`getColor` (lines 19-23) and the status badge (lines 146-154) use the same
three-way test: `s_parameter > 2.5` green / "Strong Security",
`s_parameter > classical_bound` amber / "Marginal Security", otherwise red /
"Insecure".  `classical_bound` is a field of the `CHSHResult` payload; the
spec fixes it at 2.
-/

/-- CHSHMeter zone: `s > 2.5` secure, `s > classicalBound` warning,
otherwise compromised. -/
def chshZone (s classicalBound : ℚ) : Zone :=
  if s > 5/2 then .secure
  else if s > classicalBound then .warning
  else .compromised

/-- Modelled from the spec: the backend computation of `E91Result.is_secure`
is not part of the frontend sources; §4.3 states `is_secure = S > 2.0`. -/
def e91IsSecure (s : ℚ) : Bool := s > 2

/-!
## `getSecurityLevel` — `SecurityAnalysis.tsx` lines 36-49

A pure function of the protocol and the protocol-specific metric, returning a
level / colour / score triple.  The metric arguments mirror the component's
locals `qber` and `sParameter`, each `null` unless the matching protocol's
branch applies.
-/

inductive Protocol where
  | BB84
  | E91
deriving DecidableEq, Repr

structure SecurityLevel where
  level : String
  color : String
  score : ℕ
deriving DecidableEq, Repr

/-- Embedding of `getSecurityLevel` from SecurityAnalysis.tsx: the BB84
branch keys on `qber`, the E91 branch on `sParameter`; when the relevant
metric is `null` the fallback `Unknown` triple is returned. -/
def getSecurityLevel (protocol : Protocol) (qber sParameter : Option ℚ) :
    SecurityLevel :=
  match protocol, qber with
  | .BB84, some q =>
    if q ≤ 5 then ⟨"Excellent", "emerald", 95⟩
    else if q ≤ 17/2 then ⟨"Good", "green", 75⟩
    else if q ≤ 15 then ⟨"Poor", "amber", 40⟩
    else ⟨"Compromised", "red", 10⟩
  | _, _ =>
    match sParameter with
    | some s =>
      if s > 5/2 then ⟨"Excellent", "emerald", 95⟩
      else if s > 2 then ⟨"Good", "green", 70⟩
      else if s > 3/2 then ⟨"Poor", "amber", 35⟩
      else ⟨"Compromised", "red", 10⟩
    | none => ⟨"Unknown", "slate", 0⟩

/-!
## JavaScript float values — for `KeyVisualization.tsx`

`matchRate` divides by `aliceKey.length` without a zero guard, so JavaScript's
IEEE-754 special values are observable.  `JSNum` models a double as either a
finite value (a rational; every value occurring here is exactly
representable), NaN, or one of the two infinities.  Signed zero is not
modelled; the embedded computations never produce it.
-/

inductive JSNum where
  | num (q : ℚ)
  | nan
  | posInf
  | negInf
deriving DecidableEq, Repr

/-- JavaScript division on `JSNum` (IEEE-754 rules, positive zero only). -/
def jsDiv : JSNum → JSNum → JSNum
  | .num a, .num b =>
    if b = 0 then
      if a = 0 then .nan else if 0 < a then .posInf else .negInf
    else .num (a / b)
  | .nan, _ => .nan
  | _, .nan => .nan
  | .posInf, .num b => if 0 ≤ b then .posInf else .negInf
  | .negInf, .num b => if 0 ≤ b then .negInf else .posInf
  | .num _, .posInf => .num 0
  | .num _, .negInf => .num 0
  | _, _ => .nan

/-- JavaScript multiplication on `JSNum` (IEEE-754 rules). -/
def jsMul : JSNum → JSNum → JSNum
  | .num a, .num b => .num (a * b)
  | .nan, _ => .nan
  | _, .nan => .nan
  | .posInf, .num b => if b = 0 then .nan else if 0 < b then .posInf else .negInf
  | .num a, .posInf => if a = 0 then .nan else if 0 < a then .posInf else .negInf
  | .negInf, .num b => if b = 0 then .nan else if 0 < b then .negInf else .posInf
  | .num a, .negInf => if a = 0 then .nan else if 0 < a then .negInf else .posInf
  | .posInf, .posInf => .posInf
  | .posInf, .negInf => .negInf
  | .negInf, .posInf => .negInf
  | .negInf, .negInf => .posInf

/-!
## Key match rate — `KeyVisualization.tsx` lines 37-41
-/

/-- Embedding of `aliceKey.filter((bit, i) => bit === bobKey[i]).length`
(KeyVisualization.tsx line 38): the index `i` ranges over `aliceKey`'s
positions, and an out-of-range `bobKey[i]` is `undefined`, which `===`
matches against no number. -/
def kvMatches (aliceKey bobKey : List ℤ) : ℕ :=
  ((List.range aliceKey.length).filter
    (fun i => aliceKey[i]? == bobKey[i]?)).length

/-- Embedding of `(matches / aliceKey.length) * 100` (KeyVisualization.tsx
line 39), under JavaScript float semantics. -/
def matchRate (aliceKey bobKey : List ℤ) : JSNum :=
  jsMul (jsDiv (.num (kvMatches aliceKey bobKey)) (.num aliceKey.length))
    (.num 100)

/-!
## Key parsing and length gating — `EncryptionPage.tsx`

`parseKey` splits the textarea contents on the regex `[\s,]+`, keeps only the
tokens that are exactly `"0"` or `"1"`, and parses those.  `handleEncrypt` /
`handleDecrypt` re-parse the key and throw before contacting the crypto
service when fewer than 128 bits were parsed.
-/

/-- Characters matched by the separator class of the regex in
EncryptionPage.tsx line 39 (ASCII whitespace or comma). -/
def isSepChar (c : Char) : Bool :=
  c == ' ' || c == '\t' || c == '\n' || c == '\r' ||
    c == '\x0b' || c == '\x0c' || c == ','

/-- Engine of the JavaScript `keyStr.split(/[\s,]+/)`: walks the characters
either inside a token (`some acc`, reversed accumulator) or directly after a
separator run (`none`).  A leading or trailing separator run yields an empty
token, exactly as `String.prototype.split` does. -/
def jsSplitAux : List Char → Option (List Char) → List String
  | [], some acc => [String.mk acc.reverse]
  | [], none => [""]
  | c :: cs, some acc =>
    if isSepChar c then String.mk acc.reverse :: jsSplitAux cs none
    else jsSplitAux cs (some (c :: acc))
  | c :: cs, none =>
    if isSepChar c then jsSplitAux cs none
    else jsSplitAux cs (some [c])

/-- JavaScript `keyStr.split(/[\s,]+/)`. -/
def jsSplit (s : String) : List String := jsSplitAux s.data (some [])

/-- Embedding of `parseKey` (EncryptionPage.tsx lines 37-42).  The final
`parseInt(s, 10)` only ever sees the strings `"0"` and `"1"`, so it is the
map sending `"1"` to `1` and `"0"` to `0`. -/
def parseKey (keyStr : String) : List ℕ :=
  ((jsSplit keyStr).filter (fun s => s == "0" || s == "1")).map
    (fun s => if s == "1" then 1 else 0)

/-- The error message thrown by `handleEncrypt` / `handleDecrypt` when the
parsed key has fewer than 128 bits. -/
def keyTooShortMsg (n : ℕ) : String :=
  "Key too short: " ++ toString n ++ " bits. Need at least 128 bits."

/-- Payload of `cryptoService.encrypt` (cryptoService.ts lines 6-10). -/
structure EncryptRequest where
  quantum_key : List ℕ
  plaintext : String
  key_size : ℕ
deriving DecidableEq, Repr

/-- Payload of `cryptoService.decrypt` (cryptoService.ts lines 23-28). -/
structure DecryptRequest where
  quantum_key : List ℕ
  ciphertext : String
  iv : String
  key_size : ℕ
deriving DecidableEq, Repr

/-- Embedding of the key-gating stage of `handleEncrypt` (EncryptionPage.tsx
lines 44-56): parse the key, throw a key-too-short error below 128 bits, and
otherwise produce the request handed to `cryptoService.encrypt`.  An
`Except.error` means no request reaches the crypto service. -/
def handleEncryptStage (quantumKey inputText : String) (keySize : ℕ) :
    Except String EncryptRequest :=
  let keyBits := parseKey quantumKey
  if keyBits.length < 128 then .error (keyTooShortMsg keyBits.length)
  else .ok { quantum_key := keyBits, plaintext := inputText, key_size := keySize }

/-- Embedding of the key-gating stage of `handleDecrypt` (EncryptionPage.tsx
lines 71-84), analogous to `handleEncryptStage`. -/
def handleDecryptStage (quantumKey inputText ivText : String) (keySize : ℕ) :
    Except String DecryptRequest :=
  let keyBits := parseKey quantumKey
  if keyBits.length < 128 then .error (keyTooShortMsg keyBits.length)
  else .ok { quantum_key := keyBits, ciphertext := inputText, iv := ivText,
             key_size := keySize }

/-- A concrete 3-bit key string, for instantiating the gating theorems. -/
def sampleShortKey : String := "1 0 1"

/-- A concrete 128-bit key string (128 `"1"` tokens separated by blanks). -/
def sampleLongKey : String := String.intercalate " " (List.replicate 128 "1")

/-!
## Simulation configurations and the Zustand store — `store/index.ts`
-/

/-- BB84 measurement bases (types.ts: `type Basis = 'Z' | 'X' | 'D'`). -/
inductive Basis where
  | Z
  | X
  | D
deriving DecidableEq, Repr

/-- `BB84Config` (types.ts lines 783-789). -/
structure BB84Config where
  n_qubits : ℕ
  bases : List Basis
  eve_attack : Bool
  eve_intercept_ratio : ℚ
  shots : ℕ
deriving DecidableEq, Repr

/-- `E91Config` (types.ts lines 832-839). -/
structure E91Config where
  n_pairs : ℕ
  alice_angles : List ℚ
  bob_angles : List ℚ
  eve_attack : Bool
  shots : ℕ
  noise_level : ℚ
deriving DecidableEq, Repr

/-- `defaultBB84Config` (store/index.ts lines 18-24). -/
def defaultBB84Config : BB84Config :=
  { n_qubits := 9, bases := [.Z, .X], eve_attack := false,
    eve_intercept_ratio := 1, shots := 1024 }

/-- `defaultE91Config` (store/index.ts lines 26-33). -/
def defaultE91Config : E91Config :=
  { n_pairs := 9, alice_angles := [0, 45, 90], bob_angles := [45, 90, 135],
    eve_attack := false, shots := 1024, noise_level := 0 }

/-- Embedding of the basis-toggle handler on the BB84 page (BB84Page.tsx
lines 513-520): deselecting removes the basis, selecting appends it, and the
store update is skipped when the new list would be empty. -/
def toggleBasis (bases : List Basis) (b : Basis) : List Basis :=
  let newBases :=
    if bases.contains b then bases.filter (fun x => x != b)
    else bases ++ [b]
  if newBases.length > 0 then newBases else bases

/-- `SimulationStatus` (types.ts line 778). -/
inductive SimStatus where
  | idle
  | running
  | completed
  | error
deriving DecidableEq, Repr

/-- The simulation-relevant fields of the Zustand store (store/index.ts
lines 35-63).  The backend result payloads are opaque here, so the store is
parametrised by their types. -/
structure SimulationStore (α β : Type) where
  protocol : Option Protocol
  status : SimStatus
  bb84Config : BB84Config
  e91Config : E91Config
  bb84Result : Option α
  e91Result : Option β
  error : Option String
deriving DecidableEq, Repr

/-- Embedding of `runBB84Simulation` (store/index.ts lines 78-90).  The
single awaited `bb84Service.simulate(bb84Config)` call is represented by the
`outcome` argument (`Except.error` carries the failure message the catch
block stores).  The second component lists the requests issued: always
exactly the one carrying the current `bb84Config`. -/
def runBB84Simulation (st : SimulationStore α β) (outcome : Except String α) :
    SimulationStore α β × List BB84Config :=
  let st₁ := { st with status := .running, error := none, bb84Result := none }
  match outcome with
  | .ok r => ({ st₁ with status := .completed, bb84Result := some r },
      [st.bb84Config])
  | .error m => ({ st₁ with status := .error, error := some m },
      [st.bb84Config])

/-- Embedding of `runE91Simulation` (store/index.ts lines 92-104), analogous
to `runBB84Simulation`. -/
def runE91Simulation (st : SimulationStore α β) (outcome : Except String β) :
    SimulationStore α β × List E91Config :=
  let st₁ := { st with status := .running, error := none, e91Result := none }
  match outcome with
  | .ok r => ({ st₁ with status := .completed, e91Result := some r },
      [st.e91Config])
  | .error m => ({ st₁ with status := .error, error := some m },
      [st.e91Config])

/-!
## Config validation — modelled from the spec

The simulation engine proper (the backend) is not part of the sources under
verification; only its frontend callers are.  Its validation stage is
therefore modelled from the spec.
-/

/-- Error taxonomy entry used by validation (spec §7). -/
inductive SimError where
  | configError (msg : String)
deriving DecidableEq, Repr

/-- Modelled from the spec: the backend validation of a BB84
`SimulationConfig` is not under `src/`.  Spec §4.1: "Fails with `ConfigError`
when qubit/pair count is outside the supported set, when basis/angle lists
are empty, or when shot count is non-positive"; §3 fixes the BB84 counts to
9/12/16. -/
def validateBB84Config (c : BB84Config) : Except SimError Unit :=
  if c.n_qubits ∈ ([9, 12, 16] : List ℕ) then
    if c.bases.isEmpty then .error (.configError "empty basis list")
    else if c.shots = 0 then .error (.configError "non-positive shot count")
    else .ok ()
  else .error (.configError "unsupported qubit count")

/-- Modelled from the spec: the backend validation of an E91
`SimulationConfig` is not under `src/`.  Spec §4.1 as above; §3 fixes the E91
pair counts to 6/9/12. -/
def validateE91Config (c : E91Config) : Except SimError Unit :=
  if c.n_pairs ∈ ([6, 9, 12] : List ℕ) then
    if c.alice_angles.isEmpty || c.bob_angles.isEmpty then
      .error (.configError "empty angle list")
    else if c.shots = 0 then .error (.configError "non-positive shot count")
    else .ok ()
  else .error (.configError "unsupported pair count")

/-- Modelled from the spec: entry of the BB84 engine — validation, then the
GENERATE stage (§4.2 step 1) drawing from the injectable random source
(§9), here a bit tape `rand`.  Only validation and the point at which
randomness is first consumed are modelled. -/
def bb84SimulateEntry (c : BB84Config) (rand : ℕ → Bool) :
    Except SimError (List Bool) :=
  match validateBB84Config c with
  | .error e => .error e
  | .ok _ => .ok ((List.range c.n_qubits).map rand)

/-- Modelled from the spec: entry of the E91 engine — validation, then the
GENERATE_PAIRS stage (§4.3 step 1) drawing from the random source. -/
def e91SimulateEntry (c : E91Config) (rand : ℕ → Bool) :
    Except SimError (List Bool) :=
  match validateE91Config c with
  | .error e => .error e
  | .ok _ => .ok ((List.range c.n_pairs).map rand)

end QKD

/-!
## Claims about the security classification
-/

namespace QKD

/-- C1 counterexample: the claim states the classification is warning
whenever `5 ≤ QBER ≤ 8.5`, but at `QBER = 5` exactly the code classifies the
channel as secure (`qber <= 5` in QBERChart.tsx lines 95, 171, 178). -/
theorem qber_five_is_secure_not_warning :
    qberZone 5 qberThreshold = .secure ∧
    (qberZone 5 qberThreshold == Zone.warning) = false := by decide

/-- C1 (amended): the QBER chart classifies `QBER ≤ 5` as secure,
`5 < QBER ≤ 8.5` as warning, `QBER > 8.5` as compromised, and (spec-modelled
backend) `is_secure` holds exactly when `QBER < 8.5`. -/
theorem bb84_qber_classification (q : ℚ) :
    (qberZone q qberThreshold = .secure ↔ q ≤ 5) ∧
    (qberZone q qberThreshold = .warning ↔ 5 < q ∧ q ≤ 17/2) ∧
    (qberZone q qberThreshold = .compromised ↔ 17/2 < q) ∧
    (bb84IsSecure q = true ↔ q < 17/2) := by
  unfold qberZone qberThreshold bb84IsSecure
  split_ifs with h1 h2 <;> simp_all
  all_goals linarith

/-- C1 witness: the amended classification at QBER 3 %: secure. -/
theorem bb84_qber_classification_witness :
    qberZone 3 qberThreshold = .secure :=
  (bb84_qber_classification 3).1.mpr (by norm_num)

/-- C2: with the classical bound at its specified value 2, the CHSH meter
classifies `S > 2.5` as secure, `2 < S ≤ 2.5` as warning, `S ≤ 2` as
compromised, and (spec-modelled backend) `is_secure` holds exactly when
`S > 2`. -/
theorem e91_chsh_classification (s : ℚ) :
    (chshZone s 2 = .secure ↔ s > 5/2) ∧
    (chshZone s 2 = .warning ↔ 2 < s ∧ s ≤ 5/2) ∧
    (chshZone s 2 = .compromised ↔ s ≤ 2) ∧
    (e91IsSecure s = true ↔ s > 2) := by
  unfold chshZone e91IsSecure
  split_ifs with h1 h2 <;> simp_all
  all_goals linarith

/-- C2 witness: the classification at `S = 2.7`: secure, and `is_secure`. -/
theorem e91_chsh_classification_witness :
    chshZone (27/10) 2 = .secure ∧ e91IsSecure (27/10) = true :=
  ⟨(e91_chsh_classification (27/10)).1.mpr (by norm_num),
   ((e91_chsh_classification (27/10)).2.2.2).mpr (by norm_num)⟩

/-- C5: `getSecurityLevel` is a pure, deterministic function of the
protocol and the metric: equal inputs give equal level/colour/score. -/
theorem getSecurityLevel_deterministic
    (p₁ p₂ : Protocol) (q₁ q₂ s₁ s₂ : Option ℚ)
    (hp : p₁ = p₂) (hq : q₁ = q₂) (hs : s₁ = s₂) :
    getSecurityLevel p₁ q₁ s₁ = getSecurityLevel p₂ q₂ s₂ := by
  subst hp; subst hq; subst hs; rfl

/-- C5 witness: determinism instantiated at BB84 with QBER 3 %. -/
theorem getSecurityLevel_deterministic_witness :
    getSecurityLevel .BB84 (some 3) none = getSecurityLevel .BB84 (some 3) none :=
  getSecurityLevel_deterministic .BB84 .BB84 (some 3) (some 3) none none
    rfl rfl rfl

end QKD

/-!
## Claims about key handling
-/

namespace QKD

/-- Helper: with equal-length keys, the indexed match count of
`KeyVisualization` equals the number of agreeing positions of the zipped
keys. -/
theorem kvMatches_eq_zip (a : List ℤ) :
    ∀ b : List ℤ, a.length = b.length →
      kvMatches a b = ((a.zip b).filter (fun p => p.1 == p.2)).length := by
  induction a with
  | nil => intro b h; simp [kvMatches]
  | cons x xs ih =>
    intro b h
    cases b with
    | nil => simp at h
    | cons y ys =>
      have hx := ih ys (by simpa using h)
      unfold kvMatches at hx ⊢
      simp only [List.length_cons, List.range_succ_eq_map, List.filter_cons,
        List.zip_cons_cons, List.filter_map, List.length_map,
        List.getElem?_cons_zero] at hx ⊢
      by_cases hxy : x == y <;>
        simp only [Function.comp_def, List.getElem?_cons_succ] <;>
        simp [hxy, hx]

/-- C4 counterexample: at the empty keys (equal lengths!) the displayed match
rate is NaN, not the rational `100 * matches / length` (which in `ℚ`, where
`0 / 0 = 0`, would be `num 0`). -/
theorem empty_keys_match_rate_counterexample :
    matchRate ([] : List ℤ) [] = .nan ∧
    (matchRate ([] : List ℤ) [] == JSNum.num (0 / 0 * 100)) = false := by
  decide

/-- C4 (amended): for equal-length, non-empty keys the displayed match rate
is the finite number `100 * (number of agreeing positions) / key length`. -/
theorem key_match_rate_eq (a b : List ℤ) (hlen : a.length = b.length)
    (hne : a ≠ []) :
    matchRate a b =
      .num (100 * (((a.zip b).filter (fun p => p.1 == p.2)).length : ℚ) /
        a.length) := by
  have hm := kvMatches_eq_zip a b hlen
  have hl : ((a.length : ℚ)) ≠ 0 := by
    have h0 : a.length ≠ 0 := by
      intro h0; exact hne (List.eq_nil_of_length_eq_zero h0)
    exact_mod_cast h0
  simp only [matchRate, jsDiv, jsMul, hm]
  rw [if_neg hl]
  ring_nf

/-- C4 witness: keys `[0, 1]` and `[0, 0]` agree at one of two positions, so
the displayed rate is `100 * 1 / 2 = 50`. -/
theorem key_match_rate_eq_witness :
    matchRate [(0 : ℤ), 1] [0, 0] =
      .num (100 * (((([(0 : ℤ), 1]).zip [(0 : ℤ), 0]).filter
        (fun p => p.1 == p.2)).length : ℚ) / ([(0 : ℤ), 1]).length) :=
  key_match_rate_eq [0, 1] [0, 0] (by decide) (by decide)

/-- C10: at the public interface of `KeyVisualization`, empty key arrays make
the unguarded division `matches / aliceKey.length` a `0 / 0`, which is NaN,
and the whole match-rate expression evaluates to NaN. -/
theorem empty_keys_match_rate_nan :
    jsDiv (.num 0) (.num 0) = .nan ∧ matchRate ([] : List ℤ) [] = .nan := by
  decide

/-- C8: every element `parseKey` returns is 0 or 1, and the key length equals
the number of tokens of the input that are exactly `"0"` or `"1"` — all other
tokens are dropped by the filter, never rejected with an error. -/
theorem parseKey_binary (s : String) :
    ((parseKey s).all (fun b => b == 0 || b == 1)) = true ∧
    (parseKey s).length =
      ((jsSplit s).filter (fun t => t == "0" || t == "1")).length := by
  refine ⟨?_, by simp [parseKey]⟩
  rw [List.all_eq_true]
  intro x hx
  simp only [parseKey, List.mem_map] at hx
  obtain ⟨t, ht, rfl⟩ := hx
  by_cases h1 : t == "1" <;> simp [h1]

/-- C3: both crypto handlers fail with the key-too-short error, producing no
request for the crypto service, exactly when the parsed key has fewer than
128 bits; with at least 128 bits the check passes and the request carrying
the parsed bits is issued. -/
theorem encrypt_decrypt_key_gate (k t iv : String) (n : ℕ) :
    ((parseKey k).length < 128 →
      handleEncryptStage k t n = .error (keyTooShortMsg (parseKey k).length) ∧
      handleDecryptStage k t iv n =
        .error (keyTooShortMsg (parseKey k).length)) ∧
    (128 ≤ (parseKey k).length →
      handleEncryptStage k t n =
        .ok { quantum_key := parseKey k, plaintext := t, key_size := n } ∧
      handleDecryptStage k t iv n =
        .ok { quantum_key := parseKey k, ciphertext := t, iv := iv,
              key_size := n }) := by
  simp only [handleEncryptStage, handleDecryptStage]
  constructor
  · intro h; simp [h]
  · intro h; simp [Nat.not_lt.mpr h]

set_option maxRecDepth 100000 in
/-- C3 witness: a 3-bit key is rejected by the encrypt handler; a 128-bit key
passes the decrypt handler's check and the request is formed. -/
theorem encrypt_decrypt_key_gate_witness :
    handleEncryptStage sampleShortKey "m" 256 =
      .error (keyTooShortMsg (parseKey sampleShortKey).length) ∧
    handleDecryptStage sampleLongKey "c" "v" 256 =
      .ok { quantum_key := parseKey sampleLongKey, ciphertext := "c",
            iv := "v", key_size := 256 } :=
  ⟨((encrypt_decrypt_key_gate sampleShortKey "m" "v" 256).1 (by decide)).1,
   ((encrypt_decrypt_key_gate sampleLongKey "c" "v" 256).2 (by decide)).2⟩

end QKD

/-!
## Claims about the store and the configuration
-/

namespace QKD

/-- Helper: one basis toggle never empties a non-empty basis list, because
the handler skips the store update when the new list would be empty. -/
theorem toggleBasis_length_pos (bases : List Basis) (b : Basis)
    (h : 0 < bases.length) : 0 < (toggleBasis bases b).length := by
  unfold toggleBasis
  dsimp only
  split_ifs with h1 h2 h3 <;> assumption

/-- C9: starting from the default configuration's bases `[Z, X]`, any
sequence of basis toggles on the BB84 page leaves `bb84Config.bases`
non-empty. -/
theorem bb84_bases_stay_nonempty (ops : List Basis) :
    0 < (ops.foldl toggleBasis defaultBB84Config.bases).length := by
  have step : ∀ (l : List Basis) (bs : List Basis),
      0 < bs.length → 0 < (l.foldl toggleBasis bs).length := by
    intro l
    induction l with
    | nil => intro bs h; exact h
    | cons x xs ih => intro bs h; exact ih _ (toggleBasis_length_pos bs x h)
  exact step ops defaultBB84Config.bases (by decide)

/-- C6: each run action issues exactly the one request carrying the current
config (no retry); on failure it ends in status `error` with the failure
message stored and the result field `none`, and on success it ends in status
`completed` with the result stored. -/
theorem run_simulation_one_request (α β : Type) (st : SimulationStore α β)
    (r : α) (s : β) (m : String) :
    (runBB84Simulation st (.error m)).2 = [st.bb84Config] ∧
    (runBB84Simulation st (.error m)).1.status = .error ∧
    (runBB84Simulation st (.error m)).1.error = some m ∧
    (runBB84Simulation st (.error m)).1.bb84Result = none ∧
    (runBB84Simulation st (.ok r)).2 = [st.bb84Config] ∧
    (runBB84Simulation st (.ok r)).1.status = .completed ∧
    (runBB84Simulation st (.ok r)).1.bb84Result = some r ∧
    (runE91Simulation st (.error m)).2 = [st.e91Config] ∧
    (runE91Simulation st (.error m)).1.status = .error ∧
    (runE91Simulation st (.error m)).1.error = some m ∧
    (runE91Simulation st (.error m)).1.e91Result = none ∧
    (runE91Simulation st (.ok s)).2 = [st.e91Config] ∧
    (runE91Simulation st (.ok s)).1.status = .completed ∧
    (runE91Simulation st (.ok s)).1.e91Result = some s :=
  ⟨rfl, rfl, rfl, rfl, rfl, rfl, rfl, rfl, rfl, rfl, rfl, rfl, rfl, rfl⟩

/-- C7: a BB84 qubit count outside 9/12/16, or an E91 pair count outside
6/9/12, is rejected with a `ConfigError`, and the rejection is independent of
the random source — no randomness is drawn. -/
theorem invalid_count_rejected (bc : BB84Config) (ec : E91Config)
    (rand₁ rand₂ : ℕ → Bool) :
    (bc.n_qubits ∉ ([9, 12, 16] : List ℕ) →
      bb84SimulateEntry bc rand₁ =
        .error (.configError "unsupported qubit count") ∧
      bb84SimulateEntry bc rand₁ = bb84SimulateEntry bc rand₂) ∧
    (ec.n_pairs ∉ ([6, 9, 12] : List ℕ) →
      e91SimulateEntry ec rand₁ =
        .error (.configError "unsupported pair count") ∧
      e91SimulateEntry ec rand₁ = e91SimulateEntry ec rand₂) := by
  constructor
  · intro h
    have hv : validateBB84Config bc =
        .error (.configError "unsupported qubit count") := by
      unfold validateBB84Config
      rw [if_neg h]
    exact ⟨by simp [bb84SimulateEntry, hv], by simp [bb84SimulateEntry, hv]⟩
  · intro h
    have hv : validateE91Config ec =
        .error (.configError "unsupported pair count") := by
      unfold validateE91Config
      rw [if_neg h]
    exact ⟨by simp [e91SimulateEntry, hv], by simp [e91SimulateEntry, hv]⟩

/-- C7 witness: a 7-qubit BB84 config and a 5-pair E91 config are rejected,
whatever the random source supplies. -/
theorem invalid_count_rejected_witness :
    bb84SimulateEntry ⟨7, [.Z], false, 1, 1024⟩ (fun _ => false) =
      .error (.configError "unsupported qubit count") ∧
    e91SimulateEntry ⟨5, [0], [0], false, 1024, 0⟩ (fun _ => true) =
      .error (.configError "unsupported pair count") :=
  ⟨((invalid_count_rejected ⟨7, [.Z], false, 1, 1024⟩
      ⟨5, [0], [0], false, 1024, 0⟩ (fun _ => false) (fun _ => true)).1
      (by decide)).1,
   ((invalid_count_rejected ⟨7, [.Z], false, 1, 1024⟩
      ⟨5, [0], [0], false, 1024, 0⟩ (fun _ => true) (fun _ => false)).2
      (by decide)).1⟩

end QKD
